import Mathlib

/-!
Shallow embedding of `PyMicrotops/microtops.py` (class `Microtops`):
the skip-row computation of `_load_file` (header auto-detection, footer
stripping, "Na" row filtering, lines 47-97 of the source) and the AOT
query engine `Microtops.aot` (native-wavelength passthrough and
Angstrom-exponent interpolation, lines 132-185).

Python floats are modelled by `ℝ`, with Mathlib's total `Real.log` and
real exponentiation standing for `np.log` and `**` (numpy's log does not
raise on non-positive inputs either: it yields a junk value, NaN or
-inf, while the total `Real.log` yields `0`; in both readings the
computation produces a value rather than an error).  Python runtime
exceptions that the control flow can actually reach are modelled
explicitly as `Except` errors.
-/

/-- The `skiprows` argument of `Microtops.__init__` and `_load_file`:
`None` (auto-detect, constructor `auto`), an `int`, a `list` of line
indices, or a value of any other type. -/
inductive Skiprows where
  | auto : Skiprows
  | int : Nat → Skiprows
  | list : List Nat → Skiprows
  | other : Skiprows

/-- Errors reachable in the skip-row computation of `_load_file`:
`typeError` is the explicit `raise TypeError` (line 76) for an unhandled
`skiprows` type; `unboundLocal` is the `UnboundLocalError` raised at the
first later use of `to_skip` because the explicit-list branch never
assigns it; `indexError` is `content[-1]` (line 79) on an empty file. -/
inductive LoadError where
  | typeError : LoadError
  | unboundLocal : LoadError
  | indexError : LoadError
  deriving DecidableEq

/-- The state of the local variable `to_skip` after the `skiprows`
dispatch of lines 62-76: the explicit-list branch performs only the
`isinstance` check and never assigns `to_skip`. -/
inductive SkipInit where
  | assigned : List Nat → SkipInit
  | unassigned : SkipInit
  deriving DecidableEq

/-- Python's `content.index(s)`: index of the first occurrence.  In the
source it is only evaluated under an `s in content` guard. -/
def pyIndex (s : String) : List String → Nat
  | [] => 0
  | x :: xs => if x = s then 0 else pyIndex s xs + 1

/-- Lines 62-76 of `_load_file`: dispatch on the type of `skiprows` and
initialise `to_skip` (`range(0, skiprows+1)` for an int; auto-detection
of the first line equal to `data_start` for `None`; nothing at all in
the list branch; `TypeError` otherwise). -/
def initToSkip (skiprows : Skiprows) (content : List String)
    (data_start : String) : Except LoadError SkipInit :=
  match skiprows with
  | Skiprows.int n => Except.ok (SkipInit.assigned (List.range (n + 1)))
  | Skiprows.auto =>
      if data_start ∈ content then
        Except.ok (SkipInit.assigned (List.range (pyIndex data_start content + 1)))
      else
        Except.ok (SkipInit.assigned [])
  | Skiprows.list _ => Except.ok SkipInit.unassigned
  | Skiprows.other => Except.error LoadError.typeError

/-- Lines 78-85 of `_load_file`: footer stripping.  `content[-1]` raises
`IndexError` on an empty file; when the last line equals `ending`, its
index is appended to `to_skip` unless already present — and that
membership test (`end_index not in to_skip`, line 84) is the first use
of `to_skip`, raising `UnboundLocalError` when it was never assigned. -/
def footerPhase (content : List String) (ending : String) (ts : SkipInit) :
    Except LoadError SkipInit :=
  match content.getLast? with
  | Option.none => Except.error LoadError.indexError
  | Option.some last =>
      if last = ending then
        match ts with
        | SkipInit.unassigned => Except.error LoadError.unboundLocal
        | SkipInit.assigned l =>
            Except.ok (SkipInit.assigned
              (if content.length - 1 ∈ l then l else l ++ [content.length - 1]))
      else
        Except.ok ts

/-- True exactly when the character list contains an `'N'` immediately
followed by an `'a'`. -/
def hasNaChars : List Char → Bool
  | 'N' :: 'a' :: _ => true
  | _ :: rest => hasNaChars rest
  | [] => false

/-- Line 91 of `_load_file`: Python's `"Na" in content[i]`, a literal
two-character substring scan. -/
def strHasNa (s : String) : Bool :=
  hasNaChars s.toList

/-- Lines 87-92 of `_load_file`: indices of all lines of the full
original line set whose text contains the substring `"Na"`. -/
def nanLines (content : List String) : List Nat :=
  (List.range content.length).filter (fun i => strHasNa (content.getD i ""))

/-- Lines 93-97 of `_load_file`: append the NaN-filter indices to
`to_skip` (only when that list is non-empty, as in the source).  Both
line 95 and the final `pd.read_csv(..., skiprows=to_skip)` at line 97
read `to_skip`, so an unassigned `to_skip` raises `UnboundLocalError`
here in every case. -/
def nanPhase (content : List String) (ts : SkipInit) :
    Except LoadError (List Nat) :=
  match ts with
  | SkipInit.unassigned => Except.error LoadError.unboundLocal
  | SkipInit.assigned l =>
      if nanLines content = [] then Except.ok l
      else Except.ok (l ++ nanLines content)

/-- The complete skip-row computation of `Microtops._load_file`
(lines 62-97): the discard set handed to the CSV parser. -/
def computeToSkip (skiprows : Skiprows) (content : List String)
    (data_start ending : String) : Except LoadError (List Nat) :=
  match initToSkip skiprows content data_start with
  | Except.error err => Except.error err
  | Except.ok ts =>
      match footerPhase content ending ts with
      | Except.error err => Except.error err
      | Except.ok ts2 => nanPhase content ts2

/-- The line indices that survive the discard set and reach the CSV
parser in `pd.read_csv(filename, skiprows=to_skip)`. -/
def keptIndices (content : List String) (to_skip : List Nat) : List Nat :=
  (List.range content.length).filter (fun i => decide (i ∉ to_skip))

/-- A Microtops dataset after construction: the catalog wavelengths in
`AOT<n>` column order (as extracted by `_process_wavelengths`,
lines 123-130) and the time-indexed rows, each mapping a wavelength `n`
to the value of column `AOT<n>`. -/
structure Microtops where
  wavelengths : List Nat
  rows : List (Nat × (Nat → ℝ))

/-- Line 143: `self.data[start_time:end_time]`, pandas label slicing,
inclusive at both ends, unbounded where the bound is absent. -/
def sliceRows (rows : List (Nat × (Nat → ℝ))) (start_time end_time : Option Nat) :
    List (Nat × (Nat → ℝ)) :=
  rows.filter (fun r =>
    (match start_time with
     | Option.none => true
     | Option.some t => decide (t ≤ r.1)) &&
    (match end_time with
     | Option.none => true
     | Option.some t => decide (r.1 ≤ t)))

/-- Runtime errors reachable on the interpolation path of
`Microtops.aot`: `indexError` is `wvs[0]` (line 165) or `wvs[-1]`
(line 174) on an empty catalog; `nameError` is the error at line 177,
where `wv_above` is read although the above-maximum fallback branch
assigned `wv_below` (line 174) and never `wv_above`. -/
inductive AotError where
  | indexError : AotError
  | nameError : AotError
  deriving DecidableEq

/-- Helper for `argmin`: fold tracking the first index of the minimum. -/
def argminAux (best : Int) (bestIdx i : Nat) : List Int → Nat
  | [] => bestIdx
  | x :: xs =>
      if x < best then argminAux x i (i + 1) xs
      else argminAux best bestIdx (i + 1) xs

/-- `np.argmin`: index of the first minimal element; `ValueError` on an
empty array, modelled as `Option.none`. -/
def argmin : List Int → Option Nat
  | [] => Option.none
  | x :: xs => Option.some (argminAux x 0 1 xs)

/-- Line 156: `diff = wavelength - wvs`, elementwise. -/
def diffs (wvs : List Nat) (wavelength : Int) : List Int :=
  wvs.map (fun v => wavelength - Int.ofNat v)

/-- Lines 157-165: `wv_below = wvs[np.argmin(diff[diff > 0])]`, falling
back to `wvs[0]` (with an extrapolation warning, the returned `Bool`)
when the mask is empty; `wvs[0]` itself raises `IndexError` on an empty
catalog.  Note that the source uses the index produced by `np.argmin`
over the masked array to index the full `wvs` array. -/
def wv_below (wvs : List Nat) (wavelength : Int) : Except AotError (Nat × Bool) :=
  match argmin ((diffs wvs wavelength).filter (fun d => decide (0 < d))) with
  | Option.some i => Except.ok (wvs.getD i 0, false)
  | Option.none =>
      match wvs with
      | [] => Except.error AotError.indexError
      | v :: _ => Except.ok (v, true)

/-- Lines 166-174: `wv_above = wvs[np.argmin(diff[diff < 0])]`.  When
the mask is empty, the `except` branch evaluates `wvs[-1]` (an
`IndexError` on an empty catalog) and assigns it to `wv_below`, leaving
`wv_above` unassigned, so its use at line 177 raises a `NameError`. -/
def wv_above (wvs : List Nat) (wavelength : Int) : Except AotError Nat :=
  match argmin ((diffs wvs wavelength).filter (fun d => decide (d < 0))) with
  | Option.some i => Except.ok (wvs.getD i 0)
  | Option.none =>
      match wvs with
      | [] => Except.error AotError.indexError
      | _ :: _ => Except.error AotError.nameError

/-- The extrapolation warning printed at lines 163 and 172. -/
def extrapWarning : String :=
  "Warning: extrapolating using Angstrom coefficient"

/-- Line 180: the per-observation Angstrom exponent,
`-1 * (np.log(aot_below / aot_above) / np.log(float(wv_below) / wv_above))`. -/
noncomputable def angstrom (aot_below aot_above wvb wva : ℝ) : ℝ :=
  -1 * (Real.log (aot_below / aot_above) / Real.log (wvb / wva))

/-- Line 183 for one observation:
`aot_below * ((float(wavelength) / wv_below) ** (-1 * angstrom))`. -/
noncomputable def interpRow (wavelength : Int) (wvb wva : Nat)
    (aot_below aot_above : ℝ) : ℝ :=
  aot_below * ((wavelength : ℝ) / (wvb : ℝ)) ^
    (-1 * angstrom aot_below aot_above (wvb : ℝ) (wva : ℝ))

/-- The result of a successful `aot` call: the warnings printed and the
returned series, one value per row of the sliced window. -/
structure AotResult where
  warnings : List String
  series : List ℝ

/-- `Microtops.aot` (lines 132-185): slice the window, return the stored
`AOT<w>` column when `int(wavelength)` is in the catalog, and otherwise
select `wv_below` and `wv_above` and interpolate every row with the
Angstrom exponent.  The `wavelength` argument is the value after
Python's `int()` coercion at line 145. -/
noncomputable def Microtops.aot (m : Microtops) (wavelength : Int)
    (start_time end_time : Option Nat) : Except AotError AotResult :=
  if wavelength ∈ m.wavelengths.map (fun v => Int.ofNat v) then
    Except.ok ⟨[], (sliceRows m.rows start_time end_time).map
      (fun r => r.2 wavelength.toNat)⟩
  else
    match wv_below m.wavelengths wavelength with
    | Except.error err => Except.error err
    | Except.ok (wvb, warned) =>
        match wv_above m.wavelengths wavelength with
        | Except.error err => Except.error err
        | Except.ok wva =>
            Except.ok ⟨if warned then [extrapWarning] else [],
              (sliceRows m.rows start_time end_time).map
                (fun r => interpRow wavelength wvb wva (r.2 wvb) (r.2 wva))⟩

/-- The example dataset of the documentation: columns `AOT440` and
`AOT675`, one row with `AOT440 = 0.20` and `AOT675 = 0.10`. -/
noncomputable def exampleData : Microtops :=
  ⟨[440, 675], [(0, fun v => if v = 440 then 1 / 5 else 1 / 10)]⟩

/-- A dataset whose `AOT440` column holds a zero value. -/
noncomputable def zeroAotData : Microtops :=
  ⟨[440, 675], [(0, fun v => if v = 440 then 0 else 1 / 10)]⟩

/-- A dataset whose `AOT` columns appear in descending wavelength order;
nothing in the loader sorts the catalog. -/
noncomputable def descendingData : Microtops :=
  ⟨[675, 440], [(0, fun _ => 1)]⟩

/-- C1: on the catalog `[440, 675]` the interpolation path of `aot(550)`
does NOT select `wv_above = 675`: `np.argmin(diff[diff < 0])` is an
index into the masked array, and using it on the full array yields
`wv_above = 440 = wv_below`, so the Angstrom formula degenerates to
`-log(1)/log(1)`. -/
theorem c1_wv_above_masked_argmin_bug :
    wv_above [440, 675] 550 = Except.ok 440 ∧
      wv_below [440, 675] 550 = Except.ok (440, false) ∧ (440 : Nat) ≠ 675 :=
  ⟨rfl, rfl, by decide⟩

/-- C2: in explicit-list mode, `_load_file` never assigns `to_skip`, so
construction aborts with an `UnboundLocalError` instead of discarding
the given indices and parsing the remaining lines. -/
theorem c2_list_mode_unbound_local :
    computeToSkip (Skiprows.list [0])
      ["DATE,TIME,AOT440", "01/01/24,12:00:00,0.20"] "FIELDS:" "END." =
      Except.error LoadError.unboundLocal := rfl

/-- C3: with an explicit skip list and a file whose last line is the
footer marker, the footer membership test (`end_index not in to_skip`,
line 84) raises `UnboundLocalError`, so the footer index is not added to
the discard set in this mode. -/
theorem c3_footer_unbound_local_in_list_mode :
    computeToSkip (Skiprows.list [0])
      ["FIELDS:", "DATE,TIME,AOT440,AOT675", "01/01/24,12:00:00,0.20,0.10", "END."]
      "FIELDS:" "END." = Except.error LoadError.unboundLocal := rfl

/-- C5 counterexample: on a dataset whose `AOT440` column holds `0`, the
query `aot(550)` returns a value for that row; no error of any kind is
raised (the embedding's error type has no numeric-domain case because
the source performs no such check). -/
theorem c5_zero_aot_returns_value :
    zeroAotData.aot 550 Option.none Option.none =
      Except.ok ⟨[], [interpRow 550 440 440 0 0]⟩ := rfl

/-- C6 counterexample: with the catalog in descending column order
`[675, 440]` and the query `aot(300)` (below every catalog wavelength),
the code warns and uses `wvs[0] = 675` as `wv_below`, although the
smallest catalog wavelength is `440`. -/
theorem c6_below_min_uses_first_not_smallest :
    descendingData.aot 300 Option.none Option.none =
      Except.ok ⟨[extrapWarning], [interpRow 300 675 675 1 1]⟩ ∧
      (440 : Nat) ∈ descendingData.wavelengths ∧ (440 : Nat) < 675 :=
  ⟨rfl, by decide, by decide⟩

/-- Shared helper: whenever the two neighbour selections succeed, `aot`
returns `ok` with one `interpRow` value per row of the window, whatever
the sign of the AOT values. -/
theorem aot_interp_eq (m : Microtops) (w : Int) (start_time end_time : Option Nat)
    (hmem : w ∉ m.wavelengths.map (fun v => Int.ofNat v))
    (wvb : Nat) (warned : Bool) (wva : Nat)
    (hb : wv_below m.wavelengths w = Except.ok (wvb, warned))
    (ha : wv_above m.wavelengths w = Except.ok wva) :
    m.aot w start_time end_time =
      Except.ok ⟨if warned then [extrapWarning] else [],
        (sliceRows m.rows start_time end_time).map
          (fun r => interpRow w wvb wva (r.2 wvb) (r.2 wva))⟩ := by
  unfold Microtops.aot
  rw [if_neg hmem, hb, ha]

/-- C4: for a wavelength that is (after the `int()` coercion) a member
of the catalog, `aot` is an exact passthrough of the stored `AOT<w>`
column over the sliced window: no warning, no interpolation. -/
theorem c4_native_wavelength_passthrough (m : Microtops) (w : Int)
    (start_time end_time : Option Nat)
    (hmem : w ∈ m.wavelengths.map (fun v => Int.ofNat v)) :
    m.aot w start_time end_time =
      Except.ok ⟨[], (sliceRows m.rows start_time end_time).map
        (fun r => r.2 w.toNat)⟩ := by
  unfold Microtops.aot
  rw [if_pos hmem]

/-- Witness for C4 at the example dataset and the native wavelength 440. -/
theorem c4_native_wavelength_passthrough_witness :
    exampleData.aot 440 Option.none Option.none =
      Except.ok ⟨[], (sliceRows exampleData.rows Option.none Option.none).map
        (fun r => r.2 (440 : Int).toNat)⟩ :=
  c4_native_wavelength_passthrough exampleData 440 Option.none Option.none (by decide)

/-- C5 amended: the interpolation path performs no numeric domain check.
Whenever the two neighbour selections succeed, the query returns `ok`
with one `interpRow` value per row, whatever the sign of the AOT values:
non-positive values are fed to the logarithm as they are, no error is
raised and no per-row error or configuration exists. -/
theorem c5_no_numeric_domain_check (m : Microtops) (w : Int)
    (start_time end_time : Option Nat)
    (hmem : w ∉ m.wavelengths.map (fun v => Int.ofNat v))
    (wvb : Nat) (warned : Bool) (wva : Nat)
    (hb : wv_below m.wavelengths w = Except.ok (wvb, warned))
    (ha : wv_above m.wavelengths w = Except.ok wva) :
    m.aot w start_time end_time =
      Except.ok ⟨if warned then [extrapWarning] else [],
        (sliceRows m.rows start_time end_time).map
          (fun r => interpRow w wvb wva (r.2 wvb) (r.2 wva))⟩ :=
  aot_interp_eq m w start_time end_time hmem wvb warned wva hb ha

/-- Witness for the amended C5 at a dataset with a zero AOT value. -/
theorem c5_no_numeric_domain_check_witness :
    zeroAotData.aot 550 Option.none Option.none =
      Except.ok ⟨if false then [extrapWarning] else [],
        (sliceRows zeroAotData.rows Option.none Option.none).map
          (fun r => interpRow 550 440 440 (r.2 440) (r.2 440))⟩ :=
  c5_no_numeric_domain_check zeroAotData 550 Option.none Option.none
    (by decide) 440 false 440 rfl rfl

/-- Helper: a query strictly below (or above) every catalog wavelength
is not a catalog member. -/
theorem not_mem_map_of_ne (wvs : List Nat) (w : Int)
    (h : ∀ v ∈ wvs, w ≠ (v : Int)) :
    w ∉ wvs.map (fun v => Int.ofNat v) := by
  intro hmem
  simp only [List.mem_map] at hmem
  obtain ⟨v, hv, hvw⟩ := hmem
  exact h v hv hvw.symm

/-- Helper: `argmin` returns an index on any non-empty list. -/
theorem argmin_of_ne_nil (l : List Int) (h : l ≠ []) :
    ∃ i, argmin l = Option.some i := by
  cases l with
  | nil => exact absurd rfl h
  | cons x xs => exact ⟨argminAux x 0 1 xs, rfl⟩

/-- C6 amended: for a query strictly below every catalog wavelength,
`aot` emits the extrapolation warning and uses the FIRST catalog
wavelength in column order (`wvs[0]`) as `wv_below`; that is the
smallest catalog wavelength exactly when the catalog is sorted in
ascending order. -/
theorem c6_below_min_extrapolation (m : Microtops) (w : Int)
    (start_time end_time : Option Nat) (hne : m.wavelengths ≠ [])
    (hlt : ∀ v ∈ m.wavelengths, w < (v : Int)) :
    (∃ wva, m.aot w start_time end_time =
        Except.ok ⟨[extrapWarning],
          (sliceRows m.rows start_time end_time).map
            (fun r => interpRow w (m.wavelengths.headD 0) wva
              (r.2 (m.wavelengths.headD 0)) (r.2 wva))⟩) ∧
      (List.Sorted (· ≤ ·) m.wavelengths →
        ∀ v ∈ m.wavelengths, m.wavelengths.headD 0 ≤ v) := by
  have hmem : w ∉ m.wavelengths.map (fun v => Int.ofNat v) :=
    not_mem_map_of_ne m.wavelengths w (fun v hv => ne_of_lt (hlt v hv))
  obtain ⟨v0, t, hvt⟩ : ∃ v0 t, m.wavelengths = v0 :: t := by
    cases hwv : m.wavelengths with
    | nil => exact absurd hwv hne
    | cons a l => exact ⟨a, l, rfl⟩
  have hfb : (diffs m.wavelengths w).filter (fun d => decide (0 < d)) = [] := by
    apply List.filter_eq_nil_iff.mpr
    intro d hd
    simp only [diffs, List.mem_map] at hd
    obtain ⟨v, hv, rfl⟩ := hd
    have hv2 := hlt v hv
    simp only [decide_eq_true_eq, Int.ofNat_eq_natCast]
    omega
  have hb : wv_below m.wavelengths w = Except.ok (m.wavelengths.headD 0, true) := by
    unfold wv_below
    rw [hfb, hvt]
    rfl
  have hfa : (diffs m.wavelengths w).filter (fun d => decide (d < 0)) =
      diffs m.wavelengths w := by
    apply List.filter_eq_self.mpr
    intro d hd
    simp only [diffs, List.mem_map] at hd
    obtain ⟨v, hv, rfl⟩ := hd
    have hv2 := hlt v hv
    simp only [decide_eq_true_eq, Int.ofNat_eq_natCast]
    omega
  have hdne : diffs m.wavelengths w ≠ [] := by
    rw [hvt]
    simp [diffs]
  obtain ⟨i, hi⟩ : ∃ i, argmin ((diffs m.wavelengths w).filter
      (fun d => decide (d < 0))) = Option.some i := by
    rw [hfa]
    exact argmin_of_ne_nil _ hdne
  have ha : wv_above m.wavelengths w = Except.ok (m.wavelengths.getD i 0) := by
    unfold wv_above
    rw [hi]
  constructor
  · exact ⟨m.wavelengths.getD i 0,
      aot_interp_eq m w start_time end_time hmem (m.wavelengths.headD 0) true
        (m.wavelengths.getD i 0) hb ha⟩
  · intro hs v hv
    rw [hvt] at hs hv ⊢
    simp only [List.headD_cons]
    rcases List.mem_cons.mp hv with heq | hv2
    · exact le_of_eq heq.symm
    · exact (List.sorted_cons.mp hs).1 v hv2

/-- Witness for the amended C6 at the example dataset and `aot(300)`. -/
theorem c6_below_min_extrapolation_witness :
    (∃ wva, exampleData.aot 300 Option.none Option.none =
        Except.ok ⟨[extrapWarning],
          (sliceRows exampleData.rows Option.none Option.none).map
            (fun r => interpRow 300 (exampleData.wavelengths.headD 0) wva
              (r.2 (exampleData.wavelengths.headD 0)) (r.2 wva))⟩) ∧
      (List.Sorted (· ≤ ·) exampleData.wavelengths →
        ∀ v ∈ exampleData.wavelengths, exampleData.wavelengths.headD 0 ≤ v) :=
  c6_below_min_extrapolation exampleData 300 Option.none Option.none
    (by decide) (by decide)

/-- C7: for a wavelength strictly above every catalog wavelength of a
non-empty catalog, `aot` fails with the `NameError` coming from the
never-assigned `wv_above`, so no time series is returned. -/
theorem c7_above_max_raises (m : Microtops) (w : Int)
    (start_time end_time : Option Nat) (hne : m.wavelengths ≠ [])
    (hgt : ∀ v ∈ m.wavelengths, (v : Int) < w) :
    m.aot w start_time end_time = Except.error AotError.nameError := by
  have hmem : w ∉ m.wavelengths.map (fun v => Int.ofNat v) :=
    not_mem_map_of_ne m.wavelengths w (fun v hv => (ne_of_lt (hgt v hv)).symm)
  obtain ⟨v0, t, hvt⟩ : ∃ v0 t, m.wavelengths = v0 :: t := by
    cases hwv : m.wavelengths with
    | nil => exact absurd hwv hne
    | cons a l => exact ⟨a, l, rfl⟩
  have hfb : (diffs m.wavelengths w).filter (fun d => decide (0 < d)) =
      diffs m.wavelengths w := by
    apply List.filter_eq_self.mpr
    intro d hd
    simp only [diffs, List.mem_map] at hd
    obtain ⟨v, hv, rfl⟩ := hd
    have hv2 := hgt v hv
    simp only [decide_eq_true_eq, Int.ofNat_eq_natCast]
    omega
  have hdne : diffs m.wavelengths w ≠ [] := by
    rw [hvt]
    simp [diffs]
  obtain ⟨i, hi⟩ : ∃ i, argmin ((diffs m.wavelengths w).filter
      (fun d => decide (0 < d))) = Option.some i := by
    rw [hfb]
    exact argmin_of_ne_nil _ hdne
  have hb : wv_below m.wavelengths w = Except.ok (m.wavelengths.getD i 0, false) := by
    unfold wv_below
    rw [hi]
  have hfa : (diffs m.wavelengths w).filter (fun d => decide (d < 0)) = [] := by
    apply List.filter_eq_nil_iff.mpr
    intro d hd
    simp only [diffs, List.mem_map] at hd
    obtain ⟨v, hv, rfl⟩ := hd
    have hv2 := hgt v hv
    simp only [decide_eq_true_eq, Int.ofNat_eq_natCast]
    omega
  have ha : wv_above m.wavelengths w = Except.error AotError.nameError := by
    unfold wv_above
    rw [hfa, hvt]
    rfl
  unfold Microtops.aot
  rw [if_neg hmem, hb, ha]

/-- Witness for C7 at the example dataset and `aot(1000)`. -/
theorem c7_above_max_raises_witness :
    exampleData.aot 1000 Option.none Option.none =
      Except.error AotError.nameError :=
  c7_above_max_raises exampleData 1000 Option.none Option.none
    (by decide) (by decide)

/-- C8: whenever construction succeeds, every line of the full original
line set whose text contains the substring `"Na"` is in the discard set,
and its index is excluded from the lines handed to the CSV parser. -/
theorem c8_na_lines_excluded (skiprows : Skiprows) (content : List String)
    (data_start ending : String) (l : List Nat) (i : Nat)
    (h : computeToSkip skiprows content data_start ending = Except.ok l)
    (hi : i < content.length) (hna : strHasNa (content.getD i "") = true) :
    i ∈ l ∧ i ∉ keptIndices content l := by
  have hmemnan : i ∈ nanLines content :=
    List.mem_filter.mpr ⟨List.mem_range.mpr hi, hna⟩
  have hil : i ∈ l := by
    unfold computeToSkip at h
    split at h
    · exact Except.noConfusion h
    · split at h
      · exact Except.noConfusion h
      · rename_i ts2 h2
        cases ts2 with
        | unassigned => exact Except.noConfusion h
        | assigned l0 =>
            unfold nanPhase at h
            dsimp only at h
            rw [if_neg (List.ne_nil_of_mem hmemnan)] at h
            injection h with h3
            rw [← h3]
            exact List.mem_append.mpr (Or.inr hmemnan)
  refine ⟨hil, fun hk => ?_⟩
  have hk2 := List.mem_filter.mp hk
  simp only [decide_eq_true_eq, Int.ofNat_eq_natCast] at hk2
  exact hk2.2 hil

/-- Witness for C8: explicit-count mode, a file whose second line
contains `NaN`; the discard set is `[0, 1]` and index 1 is dropped. -/
theorem c8_na_lines_excluded_witness :
    1 ∈ ([0, 1] : List Nat) ∧
      1 ∉ keptIndices ["DATE,TIME,AOT440", "01/01/24,12:00:00,NaN"] [0, 1] :=
  c8_na_lines_excluded (Skiprows.int 0) ["DATE,TIME,AOT440", "01/01/24,12:00:00,NaN"]
    "FIELDS:" "END." [0, 1] 1 rfl (by decide) (by decide)

/-- Helper: `pyIndex` finds the index of the first occurrence. -/
theorem pyIndex_first (ds : String) :
    ∀ (content : List String) (k : Nat), k < content.length →
      content.getD k "" = ds → (∀ j, j < k → content.getD j "" ≠ ds) →
      ds ∈ content ∧ pyIndex ds content = k := by
  intro content
  induction content with
  | nil => intro k hk _ _; exact absurd hk (by simp)
  | cons x t ih =>
      intro k hk heq hfirst
      by_cases hx : x = ds
      · have hk0 : k = 0 := by
          by_contra hk0
          obtain ⟨k2, rfl⟩ := Nat.exists_eq_succ_of_ne_zero hk0
          exact hfirst 0 (Nat.succ_pos _) (by simpa using hx)
        subst hk0
        exact ⟨by simp [hx], by simp [pyIndex, hx]⟩
      · have hk0 : k ≠ 0 := by
          intro h0
          subst h0
          simp only [List.getD_cons_zero] at heq
          exact hx heq
        obtain ⟨k2, rfl⟩ := Nat.exists_eq_succ_of_ne_zero hk0
        have hk2 : k2 < t.length := by simpa using hk
        have heq2 : t.getD k2 "" = ds := by simpa using heq
        have hfirst2 : ∀ j, j < k2 → t.getD j "" ≠ ds := by
          intro j hj
          have hx2 := hfirst (j + 1) (Nat.succ_lt_succ hj)
          simpa using hx2
        obtain ⟨hm, hpi⟩ := ih k2 hk2 heq2 hfirst2
        refine ⟨List.mem_cons_of_mem _ hm, ?_⟩
        simp [pyIndex, hx, hpi]

/-- Helper: a string that differs from every line is not a member. -/
theorem not_mem_of_getD_ne (ds : String) :
    ∀ content : List String,
      (∀ k, k < content.length → content.getD k "" ≠ ds) → ds ∉ content := by
  intro content
  induction content with
  | nil => intro _; simp
  | cons x t ih =>
      intro h hmem
      rcases List.mem_cons.mp hmem with heq | hmem2
      · exact h 0 (Nat.succ_pos _) (by simpa using heq.symm)
      · exact ih (fun k hk => by simpa using h (k + 1) (by simpa using hk)) hmem2

/-- C9: in auto-detect mode, if line `k` is the first line equal to the
header marker, exactly the lines `0..k` inclusive are discarded by the
header logic; if no line equals the marker, no leading lines are
discarded. -/
theorem c9_auto_detect_header (content : List String) (data_start : String) :
    (∀ k, k < content.length → content.getD k "" = data_start →
        (∀ j, j < k → content.getD j "" ≠ data_start) →
        initToSkip Skiprows.auto content data_start =
            Except.ok (SkipInit.assigned (List.range (k + 1))) ∧
          ∀ i, i ∈ List.range (k + 1) ↔ i ≤ k) ∧
      ((∀ k, k < content.length → content.getD k "" ≠ data_start) →
        initToSkip Skiprows.auto content data_start =
          Except.ok (SkipInit.assigned [])) := by
  constructor
  · intro k hk heq hfirst
    obtain ⟨hm, hpi⟩ := pyIndex_first data_start content k hk heq hfirst
    constructor
    · unfold initToSkip
      rw [if_pos hm, hpi]
    · intro i
      simp [List.mem_range, Nat.lt_succ_iff]
  · intro habs
    have hnm : data_start ∉ content := not_mem_of_getD_ne data_start content habs
    unfold initToSkip
    rw [if_neg hnm]

/-- Witness for C9: the marker `FIELDS:` on line 1 discards lines 0-1;
a file without the marker discards nothing. -/
theorem c9_auto_detect_header_witness :
    (initToSkip Skiprows.auto ["junk", "FIELDS:", "DATE,TIME,AOT440"] "FIELDS:" =
        Except.ok (SkipInit.assigned (List.range 2)) ∧
      ∀ i, i ∈ List.range 2 ↔ i ≤ 1) ∧
      initToSkip Skiprows.auto ["DATE,TIME,AOT440"] "FIELDS:" =
        Except.ok (SkipInit.assigned []) :=
  ⟨(c9_auto_detect_header ["junk", "FIELDS:", "DATE,TIME,AOT440"] "FIELDS:").1 1
      (by decide) (by decide) (by decide),
    (c9_auto_detect_header ["DATE,TIME,AOT440"] "FIELDS:").2 (by decide)⟩

/-- C10: the per-row Angstrom exponent of line 180 is invariant under a
uniform rescaling of both wavelengths by the same positive factor
(unit independence, nm versus µm), over exact real arithmetic. -/
theorem c10_angstrom_scale_invariant (a b w1 w2 c : ℝ)
    (ha : 0 < a) (hb : 0 < b) (h1 : 0 < w1) (h2 : 0 < w2)
    (hne : w1 ≠ w2) (hc : 0 < c) :
    angstrom a b (c * w1) (c * w2) = angstrom a b w1 w2 := by
  unfold angstrom
  rw [mul_div_mul_left w1 w2 (ne_of_gt hc)]

/-- Witness for C10 with a scale factor of 1000 (nm to µm). -/
theorem c10_angstrom_scale_invariant_witness :
    angstrom 2 3 (1000 * 440) (1000 * 675) = angstrom 2 3 440 675 :=
  c10_angstrom_scale_invariant 2 3 440 675 1000 (by norm_num) (by norm_num)
    (by norm_num) (by norm_num) (by norm_num) (by norm_num)
